import Mathlib

/-! # The forwarding relay of `proxy.js`

A shallow embedding of the `/proxy` route handler of `src/proxy.js` and of the
two middlewares mounted in front of it, followed by the properties of the
relay that are proved about it.

The handler is translated statement by statement.  The packages it calls are
modelled as follows:

* `new URL(s)` is a parameter `parseURL : String → Except String URL` (the
  error carries the message of the thrown `TypeError`); the record it returns
  and `searchParams.append` / `toString` follow the URL standard;
* `axios(config)` runs over a parameter `net : Config → Upstream` that says
  what each single exchange yields.  An answer with a 3xx status and a
  `location` header is followed, up to `Client.maxRedirects` times; the
  answer handed over is then judged by the default `validateStatus` (resolve
  on 2xx, reject with `error.response` otherwise); a failed exchange rejects
  without a response;
* `res.setHeader`, `res.status` and `res.send` follow Node and Express:
  `res.send` sets the default `Content-Type`, sets `Content-Length`, adds an
  `ETag`, turns a fresh conditional request into a 304, and strips the entity
  headers and the body on 204 and 304;
* `cors()` and `express.json()` are taken with their default options.

What differs between versions of these packages, or is computed by a helper
package, is a field of `Client` or of `Express`.
-/

namespace Proxy

/-- Raw bytes of a message body (a Node `Buffer`). -/
abbrev Bytes := List UInt8

/-! ## Values of `req.query` -/

/-- A value stored in `req.query` by the query parser of Express: a string, an
array (a key repeated in the query string) or a nested object. -/
inductive QValue where
  | str (s : String)
  | arr (items : List QValue)
  | obj (fields : List (String × QValue))

mutual
/-- The JavaScript conversion `String(v)`: a string is itself, an array is its
elements converted and joined with a comma, a plain object is
`[object Object]`. -/
def QValue.toJSString : QValue → String
  | .str s => s
  | .arr items => QValue.join items
  | .obj _ => "[object Object]"
/-- The JavaScript `Array.prototype.join(",")`. -/
def QValue.join : List QValue → String
  | [] => ""
  | [x] => x.toJSString
  | x :: y :: rest => x.toJSString ++ "," ++ QValue.join (y :: rest)
end

/-- The object `req.query`, as the list of its own properties in the order
`for (const key in req.query)` enumerates them. -/
abbrev Query := List (String × QValue)

/-- Property read `req.query[key]`; `none` is `undefined`. -/
def Query.get (q : Query) (key : String) : Option QValue :=
  q.lookup key

/-- The keys visited by `for (const key in req.query)`. -/
def Query.keys (q : Query) : List String :=
  q.map (fun e => e.1)

/-- JavaScript truthiness of a property read: `undefined` and the empty string
are falsy, every other string, every array and every object is truthy. -/
def truthy : Option QValue → Bool
  | none => false
  | some (.str s) => if s = "" then false else true
  | some _ => true

/-- The string a property read is converted to when it is passed where a
string is expected (`undefined` becomes the text `undefined`). -/
def coerce : Option QValue → String
  | none => "undefined"
  | some v => v.toJSString

/-! ## The `URL` object -/

/-- A parsed absolute URL.  `base` is the serialised scheme, authority and
path; `query` is the query string without `?` (`none` when the URL has none);
`searchParams` is the list behind `url.searchParams`; `hash` is the fragment
with its `#`, or empty. -/
structure URL where
  base : String
  query : Option String
  searchParams : List (String × String)
  hash : String

/-- Upper-case hexadecimal digit of a value below sixteen. -/
def hexDigit (n : Nat) : Char :=
  if n < 10 then Char.ofNat (48 + n) else Char.ofNat (55 + n)

/-- UTF-8 encoding of one code point, as byte values. -/
def utf8Bytes (c : Char) : List Nat :=
  let n := c.toNat
  if n < 0x80 then [n]
  else if n < 0x800 then [0xC0 + n / 64, 0x80 + n % 64]
  else if n < 0x10000 then [0xE0 + n / 4096, 0x80 + n / 64 % 64, 0x80 + n % 64]
  else [0xF0 + n / 262144, 0x80 + n / 4096 % 64, 0x80 + n / 64 % 64, 0x80 + n % 64]

/-- Bytes left as they are by the `application/x-www-form-urlencoded`
serialiser: ASCII letters and digits, `*`, `-`, `.` and `_`. -/
def formSafe (b : Nat) : Bool :=
  (48 ≤ b && b ≤ 57) || (65 ≤ b && b ≤ 90) || (97 ≤ b && b ≤ 122) ||
    b = 42 || b = 45 || b = 46 || b = 95

/-- Form encoding of one byte: a space is `+`, a safe byte is itself, any
other byte is `%XX`. -/
def formByte (b : Nat) : List Char :=
  if b = 32 then [Char.ofNat 43]
  else if formSafe b then [Char.ofNat b]
  else [Char.ofNat 37, hexDigit (b / 16), hexDigit (b % 16)]

/-- Form encoding of a string. -/
def formEncode (s : String) : String :=
  ⟨((s.toList.map utf8Bytes).flatten.map formByte).flatten⟩

/-- Serialisation of a `URLSearchParams` list: `name=value` pairs joined by
`&`. -/
def serializeParams : List (String × String) → String
  | [] => ""
  | [p] => formEncode p.1 ++ "=" ++ formEncode p.2
  | p :: q :: rest =>
      formEncode p.1 ++ "=" ++ formEncode p.2 ++ "&" ++ serializeParams (q :: rest)

/-- The call `url.searchParams.append(name, value)`: the pair is added at the
end of the list and the query of the URL becomes the serialised list. -/
def URL.append (u : URL) (name value : String) : URL :=
  { u with
    searchParams := u.searchParams ++ [(name, value)]
    query := some (serializeParams (u.searchParams ++ [(name, value)])) }

/-- The call `url.toString()`. -/
def URL.toString (u : URL) : String :=
  u.base ++ (match u.query with
    | none => ""
    | some q => "?" ++ q) ++ u.hash

/-- Split a character list at the first occurrence of `c`: the part before
it, and the part after it when `c` occurs. -/
def splitFirst (c : Char) : List Char → List Char × Option (List Char)
  | [] => ([], none)
  | x :: xs =>
      if x = c then ([], some xs)
      else ((x :: (splitFirst c xs).1), (splitFirst c xs).2)

/-- Split a character list at every occurrence of `c`. -/
def splitEvery (c : Char) : List Char → List (List Char)
  | [] => [[]]
  | x :: xs =>
      if x = c then [] :: splitEvery c xs
      else match splitEvery c xs with
        | [] => [[x]]
        | seg :: segs => (x :: seg) :: segs

/-- Remove the leading characters `p` from a list, when it starts with
them. -/
def dropLeading : List Char → List Char → Option (List Char)
  | [], cs => some cs
  | _ :: _, [] => none
  | p :: ps, c :: cs => if p = c then dropLeading ps cs else none

/-- Characters the restricted reader accepts in a host: lower-case letters,
digits, `.` and `-`. -/
def hostChar (c : Char) : Bool :=
  c.isLower || c.isDigit || c = Char.ofNat 46 || c = Char.ofNat 45

/-- The name/value pairs of a query string made of plain characters. -/
def queryPairs (q : List Char) : List (String × String) :=
  ((splitEvery (Char.ofNat 38) q).filter (fun seg => !seg.isEmpty)).map
    (fun seg => (⟨(splitFirst (Char.ofNat 61) seg).1⟩,
      ⟨((splitFirst (Char.ofNat 61) seg).2).getD []⟩))

/-- A restricted URL reader used for the concrete evaluations of this file:
it accepts `http://` or `https://` followed by a non-empty host of lower-case
letters, digits, dots and hyphens, then an optional path, query and fragment,
and rejects every other string with the message of the `TypeError` thrown by
`new URL`.  On the strings it is applied to below it returns what `new URL`
returns; the general theorems do not use it. -/
def parseHttpUrl (input : String) : Except String URL :=
  let scheme : Option (String × List Char) :=
    match dropLeading "http://".toList input.toList with
    | some rest => some ("http://", rest)
    | none =>
      match dropLeading "https://".toList input.toList with
      | some rest => some ("https://", rest)
      | none => none
  match scheme with
  | none => .error "Invalid URL"
  | some (s, rest) =>
    let beforeHash := (splitFirst (Char.ofNat 35) rest).1
    let fragment := (splitFirst (Char.ofNat 35) rest).2
    let beforeQuery := (splitFirst (Char.ofNat 63) beforeHash).1
    let query := (splitFirst (Char.ofNat 63) beforeHash).2
    let host := (splitFirst (Char.ofNat 47) beforeQuery).1
    let path := ((splitFirst (Char.ofNat 47) beforeQuery).2).getD []
    if host.isEmpty || !host.all hostChar then .error "Invalid URL"
    else .ok
      { base := s ++ ⟨host⟩ ++ "/" ++ ⟨path⟩
        query := query.map (fun q => ⟨q⟩)
        searchParams := queryPairs (query.getD [])
        hash := match fragment with
          | none => ""
          | some [] => ""
          | some f => "#" ++ ⟨f⟩ }

/-! ## Headers and request data -/

/-- ASCII lower-casing of a header name, the key under which Node stores
it. -/
def lowerName (s : String) : String :=
  ⟨s.toList.map Char.toLower⟩

/-- A response header value: one string, or an array of strings (as for
`set-cookie`). -/
inductive HeaderValue where
  | single (v : String)
  | multi (vs : List String)
  deriving DecidableEq

/-- A set of response headers, keyed by name. -/
abbrev Headers := List (String × HeaderValue)

/-- A JSON value as produced by `JSON.parse` (numbers kept as their text). -/
inductive Json where
  | null
  | bool (b : Bool)
  | num (text : String)
  | str (s : String)
  | arr (items : List Json)
  | obj (members : List (String × Json))

/-- A JavaScript value that can stand as a request body: `undefined`, a
buffer of raw bytes, or a value built by `JSON.parse`. -/
inductive JsData where
  | undefined
  | buffer (bytes : Bytes)
  | value (json : Json)

/-- The empty object `{}`. -/
def emptyObject : JsData :=
  .value (.obj [])

/-- The request object `req` as the handler reads it: `req.method`,
`req.query`, `req.headers` (names lower-cased by Node) and `req.body`. -/
structure Req where
  method : String
  query : Query
  headers : List (String × String)
  body : JsData

/-- The parts of Express that differ between its versions or are computed by
a helper package.  `emptyObjectBody`: a body the JSON parser does not parse
leaves `req.body = {}` (Express 4) when `true`, and leaves it `undefined`
(Express 5) when `false`.  `isJson`: the `type-is` test of a `Content-Type`
value against `application/json`.  `etag`: the `etag fn` setting applied to a
body (`none` when it yields no tag).  `validatorsMatch`: the comparison made
by the `fresh` package, once it has found the request conditional, of the
request headers with the `ETag` and `Last-Modified` of the response.
`resets205`: `res.send` empties a 205 response (Express 4.18 and later). -/
structure Express where
  emptyObjectBody : Bool
  isJson : String → Bool
  etag : Bytes → Option String
  validatorsMatch : List (String × String) → Option HeaderValue → Option HeaderValue → Bool
  resets205 : Bool

/-! ## The response object -/

/-- What was sent as the body of the response: a buffer of bytes
(`res.send(buffer)`) or a JSON object with string fields (`res.json`). -/
inductive ResBody where
  | buffer (data : Bytes)
  | json (fields : List (String × String))
  deriving DecidableEq

/-- The Express response object `res`: the status code, the headers set so
far (keyed by lower-cased name) and the body once it has been sent.  The body
is the one the response describes; for a `HEAD` request the response is ended
without writing it, as HTTP requires, and the record keeps it. -/
structure Res where
  statusCode : Nat
  headers : Headers
  body : Option ResBody
  deriving DecidableEq

/-- A response object nothing has been written to. -/
def Res.initial : Res :=
  { statusCode := 200, headers := [], body := none }

/-- The call `res.setHeader(name, value)`: header names are case-insensitive
and a later write replaces an earlier one. -/
def Res.setHeader (res : Res) (name : String) (value : HeaderValue) : Res :=
  { res with
    headers := res.headers.filter (fun h => decide (h.1 ≠ lowerName name))
      ++ [(lowerName name, value)] }

/-- The call `res.removeHeader(name)`. -/
def Res.removeHeader (res : Res) (name : String) : Res :=
  { res with headers := res.headers.filter (fun h => decide (h.1 ≠ lowerName name)) }

/-- The call `res.getHeader(name)`. -/
def Res.getHeader (res : Res) (name : String) : Option HeaderValue :=
  res.headers.lookup (lowerName name)

/-- The call `res.status(code)`. -/
def Res.status (res : Res) (code : Nat) : Res :=
  { res with statusCode := code }

/-- JavaScript falsiness of a header read: `undefined` and the empty string
are falsy, any other string and any array is truthy. -/
def unset : Option HeaderValue → Bool
  | none => true
  | some (.single v) => if v = "" then true else false
  | some (.multi _) => false

/-- The first steps of `res.send(buffer)`: `Content-Type` becomes
`application/octet-stream` unless it is set, `Content-Length` becomes the
length of the buffer, and an `ETag` is generated unless one is set. -/
def Res.entityHeaders (res : Res) (ex : Express) (data : Bytes) : Res :=
  let typed :=
    if unset (res.getHeader "Content-Type") then
      res.setHeader "Content-Type" (.single "application/octet-stream")
    else res
  let sized := typed.setHeader "Content-Length" (.single (toString data.length))
  if unset (typed.getHeader "ETag") then
    match ex.etag data with
    | some tag => sized.setHeader "ETag" (.single tag)
    | none => sized
  else sized

/-- A request header is present with a non-empty value. -/
def present (headers : List (String × String)) (name : String) : Bool :=
  match headers.lookup name with
  | none => false
  | some v => if v = "" then false else true

/-- The getter `req.fresh`: the method is `GET` or `HEAD`, the status of the
response is 2xx or 304, the request is conditional (`If-Modified-Since` or
`If-None-Match`), and its validators match those of the response. -/
def reqFresh (ex : Express) (req : Req) (res : Res) : Bool :=
  (decide (req.method = "GET") || decide (req.method = "HEAD")) &&
    (decide (200 ≤ res.statusCode ∧ res.statusCode < 300) || decide (res.statusCode = 304)) &&
    (present req.headers "if-modified-since" || present req.headers "if-none-match") &&
    ex.validatorsMatch req.headers (res.getHeader "ETag") (res.getHeader "Last-Modified")

/-- The call `res.send(data)` with a buffer, for the request `req`: the entity
headers are set; a fresh request turns the status into 304; on 204 and 304
`Content-Type`, `Content-Length` and `Transfer-Encoding` are removed and the
body is emptied; on 205 (where Express resets it) `Content-Length` becomes
`0`, `Transfer-Encoding` is removed and the body is emptied. -/
def Res.send (res : Res) (ex : Express) (req : Req) (data : Bytes) : Res :=
  let entity := res.entityHeaders ex data
  let checked := if reqFresh ex req entity then entity.status 304 else entity
  let stripped :=
    if checked.statusCode = 204 ∨ checked.statusCode = 304 then
      ((checked.removeHeader "Content-Type").removeHeader "Content-Length").removeHeader
        "Transfer-Encoding"
    else if checked.statusCode = 205 ∧ ex.resets205 = true then
      (checked.setHeader "Content-Length" (.single "0")).removeHeader "Transfer-Encoding"
    else checked
  let chunk : Bytes :=
    if checked.statusCode = 204 ∨ checked.statusCode = 304 ∨
        (checked.statusCode = 205 ∧ ex.resets205 = true) then []
    else data
  { stripped with body := some (.buffer chunk) }

/-- The call `res.json(object)` with an object of string fields, as the
handler uses it on the statuses 400 and 500: the object is the body, and the
status stays because a request is never fresh against a 400 or a 500.  The
entity headers Express derives from the serialised object (`Content-Type`,
`Content-Length`, `ETag`) are not recorded. -/
def Res.json (res : Res) (fields : List (String × String)) : Res :=
  { res with body := some (.json fields) }

/-! ## The middlewares -/

/-- The middleware `express.json()` with its default options, as the value it
leaves in `req.body`.  A request without a body (neither `transfer-encoding`
nor `content-length`) and a request whose content type is not
`application/json` are not read, and `req.body` is `{}` or `undefined`
according to the version of Express.  Otherwise the body is read: an empty
body gives `{}`, any other body is parsed by `jsonParse`; `none` means the
middleware rejected the request and the handler is not called. -/
def expressJson (ex : Express) (jsonParse : Bytes → Option Json)
    (headers : List (String × String)) (rawBody : Bytes) : Option JsData :=
  let unparsed := if ex.emptyObjectBody then emptyObject else JsData.undefined
  if (headers.lookup "transfer-encoding").isNone && (headers.lookup "content-length").isNone then
    some unparsed
  else
    match headers.lookup "content-type" with
    | none => some unparsed
    | some contentType =>
      if ex.isJson contentType then
        if rawBody.isEmpty then some emptyObject
        else (jsonParse rawBody).map JsData.value
      else some unparsed

/-- The middleware `cors()` with its default options on a request that is not
a preflight: it sets `Access-Control-Allow-Origin: *` and passes on. -/
def cors (res : Res) : Res :=
  res.setHeader "Access-Control-Allow-Origin" (.single "*")

/-! ## The outbound call -/

/-- The request configuration handed to `axios`. -/
structure Config where
  method : String
  url : String
  headers : List (String × Option String)
  data : JsData
  responseType : String

/-- An answer of a target: `response.status`, `response.headers` (own
properties in enumeration order, names lower-cased by Node) and
`response.data` (a buffer). -/
structure AxiosResponse where
  status : Nat
  headers : Headers
  data : Bytes
  deriving DecidableEq

/-- What one exchange with a target yields: the target answers, or the
exchange fails before any answer with the given message. -/
inductive Upstream where
  | response (r : AxiosResponse)
  | failure (message : String)

/-- A thrown JavaScript error: its `message` and, for an error thrown by
`axios` on an answer outside 2xx, its `response`. -/
structure JsError where
  message : String
  response : Option AxiosResponse

/-- The parts of the HTTP client that the handler leaves at their defaults:
the number of redirects it follows, and the request it sends next when an
answer redirects it to a location (a location that cannot be requested is an
exchange that fails). -/
structure Client where
  maxRedirects : Nat
  next : Config → AxiosResponse → String → Config

/-- The location an answer redirects to: its status is 3xx and it has a
non-empty `location` header. -/
def redirectLocation (r : AxiosResponse) : Option String :=
  if 300 ≤ r.status ∧ r.status < 400 then
    match r.headers.lookup "location" with
    | some (.single location) => if location = "" then none else some location
    | _ => none
  else none

/-- The default `validateStatus`: an answer with a status from 200 to 299
resolves; any other answer rejects with an error that carries it. -/
def validateStatus (r : AxiosResponse) : Except JsError AxiosResponse :=
  if 200 ≤ r.status ∧ r.status < 300 then .ok r
  else .error
    { message := "Request failed with status code " ++ toString r.status
      response := some r }

/-- One request with at most `allowed` redirects followed. -/
def follow (client : Client) (net : Config → Upstream) :
    Nat → Config → Except JsError AxiosResponse
  | 0, config =>
      match net config with
      | .failure message => .error { message := message, response := none }
      | .response r =>
          match redirectLocation r with
          | none => validateStatus r
          | some _ =>
              .error { message := "Maximum number of redirects exceeded", response := none }
  | allowed + 1, config =>
      match net config with
      | .failure message => .error { message := message, response := none }
      | .response r =>
          match redirectLocation r with
          | none => validateStatus r
          | some location => follow client net allowed (client.next config r location)

/-- The call `await axios(config)`. -/
def axios (client : Client) (net : Config → Upstream) (config : Config) :
    Except JsError AxiosResponse :=
  follow client net client.maxRedirects config

/-! ## The route handler -/

/-- What one run of the handler did: the configurations passed to `axios`, in
order, and the response object it finished. -/
structure Outcome where
  issued : List Config
  res : Res

/-- Lines 27 to 31: every key of `req.query` other than `url` is appended to
the search parameters with the value `req.query[key]`. -/
def appendQuery (originalUrl : URL) (query : Query) : URL :=
  query.keys.foldl
    (fun u key => if key ≠ "url" then u.append key (coerce (query.get key)) else u)
    originalUrl

/-- Line 40: the expression `req.headers['user-agent'] || 'Node.js Proxy'`. -/
def userAgent (headers : List (String × String)) : String :=
  match headers.lookup "user-agent" with
  | none => "Node.js Proxy"
  | some ua => if ua = "" then "Node.js Proxy" else ua

/-- Lines 34 to 48: the object `config`.  A header whose value is `none` is
the JavaScript `undefined`. -/
def buildConfig (req : Req) (originalUrl : URL) : Config :=
  { method := req.method
    url := (appendQuery originalUrl req.query).toString
    headers := [("User-Agent", some (userAgent req.headers)), ("Host", none)]
    data := req.body
    responseType := "arraybuffer" }

/-- Lines 55 to 59: the headers of the answer are copied one by one with
`res.setHeader` (every enumerated key is an own property, so the
`hasOwnProperty` test passes for each). -/
def copyHeaders (res : Res) (response : AxiosResponse) : Res :=
  response.headers.foldl (fun r h => r.setHeader h.1 h.2) res

/-- Lines 55 to 62: the headers are copied, then status and data are sent. -/
def relay (ex : Express) (req : Req) (res : Res) (response : AxiosResponse) : Res :=
  ((copyHeaders res response).status response.status).send ex req response.data

/-- Lines 64 to 74: the `catch` block. -/
def catchBlock (ex : Express) (req : Req) (res : Res) (error : JsError) : Res :=
  match error.response with
  | some r => (res.status r.status).send ex req r.data
  | none =>
      (res.status 500).json
        [("error", "Error interno del proxy"), ("details", error.message)]

/-- Lines 17 to 75: the handler of `app.all('/proxy', ...)`.  The `try` block
can throw at `new URL` and at `await axios`; both land in the same `catch`
block.  The three console messages are not part of the outcome. -/
def proxyHandler (parseURL : String → Except String URL) (client : Client) (ex : Express)
    (net : Config → Upstream) (req : Req) (res : Res) : Outcome :=
  let targetUrl := req.query.get "url"
  if !truthy targetUrl then
    { issued := []
      res := (res.status 400).json
        [("error", "Falta el parámetro \"url\" en la solicitud.")] }
  else
    match parseURL (coerce targetUrl) with
    | .error message =>
        { issued := []
          res := catchBlock ex req res { message := message, response := none } }
    | .ok originalUrl =>
        let config := buildConfig req originalUrl
        match axios client net config with
        | .ok response => { issued := [config], res := relay ex req res response }
        | .error error => { issued := [config], res := catchBlock ex req res error }

/-! ## The application -/

/-- A request as it arrives: method, parsed query, headers (names
lower-cased) and the raw bytes of its body. -/
structure Inbound where
  method : String
  query : Query
  headers : List (String × String)
  rawBody : Bytes

/-- Lines 11, 14 and 17: a request other than `OPTIONS` passes through
`cors()` and `express.json()` and reaches the handler.  `none` means a
middleware answered or rejected the request itself (a preflight answered by
`cors()`, a body rejected by `express.json()`) and the handler did not run. -/
def app (parseURL : String → Except String URL) (jsonParse : Bytes → Option Json)
    (client : Client) (ex : Express) (net : Config → Upstream) (w : Inbound) (res : Res) :
    Option Outcome :=
  if w.method = "OPTIONS" then none
  else
    match expressJson ex jsonParse w.headers w.rawBody with
    | none => none
    | some body =>
        some (proxyHandler parseURL client ex net
          { method := w.method, query := w.query, headers := w.headers, body := body }
          (cors res))

/-! ## Requests, targets and package settings used in the worked examples -/

/-- A client that follows up to five redirects and requests the location it
is given with the same method, headers and data (the locations used below are
absolute URLs answered to a `GET`). -/
def sampleClient : Client :=
  { maxRedirects := 5
    next := fun config _ location => { config with url := location } }

/-- Settings of Express 4 used for the concrete evaluations: an unparsed body
leaves `{}`; the content types used below are compared with
`application/json` as they stand; the `If-None-Match` values used below are
compared with the `ETag` of the response as they stand; no tag is generated,
and no evaluation below reads a generated tag. -/
def expressFour : Express :=
  { emptyObjectBody := true
    isJson := fun contentType => decide (contentType = "application/json")
    etag := fun _ => none
    validatorsMatch := fun headers tag _ =>
      match headers.lookup "if-none-match", tag with
      | some wanted, some (.single found) => decide (wanted = found)
      | _, _ => false
    resets205 := true }

/-- The same settings for Express 5, where an unparsed body leaves
`req.body` undefined. -/
def expressFive : Express :=
  { expressFour with emptyObjectBody := false }

/-- The request `GET /proxy?url=http://example.com/`. -/
def plainRequest : Req :=
  { method := "GET", query := [("url", .str "http://example.com/")], headers := []
    body := emptyObject }

/-- The URL record of `http://example.com/`. -/
def exampleUrl : URL :=
  { base := "http://example.com/", query := none, searchParams := [], hash := "" }

/-- The request `GET /proxy?url=http://example.com/&a=1&a=2`: Express stores
the repeated key `a` as the array `['1', '2']`. -/
def repeatedKeyRequest : Req :=
  { method := "GET"
    query := [("url", .str "http://example.com/"), ("a", .arr [.str "1", .str "2"])]
    headers := []
    body := emptyObject }

/-- The request `GET /proxy?url=not%20a%20url`, whose target does not parse. -/
def badTargetRequest : Req :=
  { method := "GET", query := [("url", .str "not a url")], headers := []
    body := emptyObject }

/-- The request `GET /proxy?url=http://example.com/` sent with the header
line `User-Agent:` (an empty value). -/
def emptyAgentRequest : Req :=
  { method := "GET", query := [("url", .str "http://example.com/")]
    headers := [("user-agent", "")], body := emptyObject }

/-- The request `GET /proxy?url=http://example.com/` sent with
`If-None-Match: "v1"`. -/
def conditionalRequest : Req :=
  { method := "GET", query := [("url", .str "http://example.com/")]
    headers := [("if-none-match", "\"v1\"")], body := emptyObject }

/-- The request `POST /proxy?url=http://example.com/` with content type
`application/octet-stream` and the two body bytes `FF 00`. -/
def binaryPost : Inbound :=
  { method := "POST", query := [("url", .str "http://example.com/")]
    headers := [("content-type", "application/octet-stream"), ("content-length", "2")]
    rawBody := [0xFF, 0x00] }

/-- The request `GET /proxy?url=http://example.com/` as it arrives. -/
def plainInbound : Inbound :=
  { method := "GET", query := [("url", .str "http://example.com/")], headers := []
    rawBody := [] }

/-- The bytes of the text `not found`. -/
def notFound : Bytes :=
  [110, 111, 116, 32, 102, 111, 117, 110, 100]

/-- The bytes of the text `gone`. -/
def gone : Bytes :=
  [103, 111, 110, 101]

/-- The bytes of the text `here`. -/
def here : Bytes :=
  [104, 101, 114, 101]

/-- The answer 404 with the headers `content-type: text/plain` and
`x-upstream: origin-1` and the body `not found`. -/
def answer404 : AxiosResponse :=
  { status := 404
    headers := [("content-type", .single "text/plain"), ("x-upstream", .single "origin-1")]
    data := notFound }

/-- A target that gives `answer404`. -/
def answers404 : Config → Upstream :=
  fun _ => .response answer404

/-- A target that gives the same headers and body with status 200. -/
def answers200 : Config → Upstream :=
  fun _ => .response { answer404 with status := 200 }

/-- The answer 200 with the header
`access-control-allow-origin: https://media.example` and the body
`not found`. -/
def answerOwnOrigin : AxiosResponse :=
  { status := 200
    headers := [("access-control-allow-origin", .single "https://media.example")]
    data := notFound }

/-- A target that gives `answerOwnOrigin`. -/
def answersOwnOrigin : Config → Upstream :=
  fun _ => .response answerOwnOrigin

/-- The answer 200 with `etag: "v1"` and the body `here`. -/
def answerTagged : AxiosResponse :=
  { status := 200, headers := [("etag", .single "\"v1\"")], data := here }

/-- A target that gives `answerTagged`. -/
def answersTagged : Config → Upstream :=
  fun _ => .response answerTagged

/-- The answer 302 with `location: http://example.com/new` and the body
`gone`. -/
def answer302 : AxiosResponse :=
  { status := 302, headers := [("location", .single "http://example.com/new")], data := gone }

/-- A target that gives `answer302` at `http://example.com/` and answers 200
with the body `here` at any other URL. -/
def answersMoved : Config → Upstream :=
  fun config =>
    if config.url = "http://example.com/" then .response answer302
    else .response { status := 200, headers := [], data := here }

/-- A target that cannot be reached: the exchange fails with the given
message. -/
def refuses : Config → Upstream :=
  fun _ => .failure "connect ECONNREFUSED 93.184.216.34:80"

/-- The answer 204 with the header `content-type: text/plain` and no body. -/
def answer204 : AxiosResponse :=
  { status := 204, headers := [("content-type", .single "text/plain")], data := [] }

/-- The answer 205 with the header `transfer-encoding: chunked` and no
body. -/
def answer205 : AxiosResponse :=
  { status := 205, headers := [("transfer-encoding", .single "chunked")], data := [] }

/-- The answer 200 whose `content-length` header says 20 while the body
handed over, `not found`, has nine bytes (the length of a compressed body the
client has decompressed). -/
def answerCompressed : AxiosResponse :=
  { status := 200, headers := [("content-length", .single "20")], data := notFound }

/-- The answer 200 with an empty `content-type` header and the body `here`. -/
def answerUntyped : AxiosResponse :=
  { status := 200, headers := [("content-type", .single "")], data := here }

/-- The answer 200 with an empty `etag` header and the body `here`. -/
def answerUntagged : AxiosResponse :=
  { status := 200, headers := [("etag", .single "")], data := here }

/-- The settings of `expressFour` with a tag function that yields a tag; the
text of the tag stands in for the hash Express computes. -/
def expressTagging : Express :=
  { expressFour with etag := fun _ => some "W/\"4-sample\"" }

/-- The bytes of the JSON text of an object with the member `a` equal to 1. -/
def jsonText : Bytes :=
  [123, 34, 97, 34, 58, 49, 125]

/-- A JSON reader fixed on the one body used below: it reads `jsonText` as the
object with the member `a` equal to 1, as `JSON.parse` does. -/
def readsJsonText : Bytes → Option Json :=
  fun raw => if raw = jsonText then some (.obj [("a", .num "1")]) else none

/-- The request `POST /proxy?url=http://example.com/` with content type
`application/json` and the body `jsonText`. -/
def jsonPost : Inbound :=
  { method := "POST", query := [("url", .str "http://example.com/")]
    headers := [("content-type", "application/json"), ("content-length", "7")]
    rawBody := jsonText }

/-- The same request with content type `text/plain`. -/
def textPost : Inbound :=
  { method := "POST", query := [("url", .str "http://example.com/")]
    headers := [("content-type", "text/plain"), ("content-length", "7")]
    rawBody := jsonText }

/-! ## Auxiliary facts -/

theorem handler_missing (parseURL : String → Except String URL) (client : Client)
    (ex : Express) (net : Config → Upstream) (req : Req) (res : Res)
    (h : truthy (req.query.get "url") = false) :
    proxyHandler parseURL client ex net req res =
      { issued := []
        res := (res.status 400).json
          [("error", "Falta el parámetro \"url\" en la solicitud.")] } := by
  simp [proxyHandler, h]

theorem handler_invalid (parseURL : String → Except String URL) (client : Client)
    (ex : Express) (net : Config → Upstream) (req : Req) (res : Res) (message : String)
    (h : truthy (req.query.get "url") = true)
    (hp : parseURL (coerce (req.query.get "url")) = .error message) :
    proxyHandler parseURL client ex net req res =
      { issued := []
        res := catchBlock ex req res { message := message, response := none } } := by
  simp [proxyHandler, h, hp]

theorem handler_valid (parseURL : String → Except String URL) (client : Client)
    (ex : Express) (net : Config → Upstream) (req : Req) (res : Res) (u : URL)
    (h : truthy (req.query.get "url") = true)
    (hp : parseURL (coerce (req.query.get "url")) = .ok u) :
    proxyHandler parseURL client ex net req res =
      { issued := [buildConfig req u]
        res := match axios client net (buildConfig req u) with
          | .ok response => relay ex req res response
          | .error error => catchBlock ex req res error } := by
  simp only [proxyHandler, h, hp]
  cases axios client net (buildConfig req u) <;> simp

theorem redirectLocation_of_2xx (r : AxiosResponse) (h : 200 ≤ r.status ∧ r.status < 300) :
    redirectLocation r = none := by
  unfold redirectLocation
  rw [if_neg (by omega)]

theorem follow_failure (client : Client) (net : Config → Upstream) (n : Nat) (config : Config)
    (message : String) (h : net config = .failure message) :
    follow client net n config = .error { message := message, response := none } := by
  cases n <;> simp [follow, h]

theorem follow_final (client : Client) (net : Config → Upstream) (n : Nat) (config : Config)
    (r : AxiosResponse) (h : net config = .response r) (hr : redirectLocation r = none) :
    follow client net n config = validateStatus r := by
  cases n <;> simp [follow, h, hr]

theorem follow_ok_status (client : Client) (net : Config → Upstream) (n : Nat)
    (config : Config) (r : AxiosResponse) (h : follow client net n config = .ok r) :
    200 ≤ r.status ∧ r.status < 300 := by
  induction n generalizing config with
  | zero =>
    unfold follow at h
    cases hn : net config with
    | failure message => simp [hn] at h
    | response a =>
      cases hl : redirectLocation a with
      | some location => simp [hn, hl] at h
      | none =>
        simp only [hn, hl, validateStatus] at h
        split at h
        · cases h; assumption
        · cases h
  | succ k ih =>
    unfold follow at h
    cases hn : net config with
    | failure message => simp [hn] at h
    | response a =>
      cases hl : redirectLocation a with
      | some location =>
        simp only [hn, hl] at h
        exact ih _ h
      | none =>
        simp only [hn, hl, validateStatus] at h
        split at h
        · cases h; assumption
        · cases h

theorem follow_error_status (client : Client) (net : Config → Upstream) (n : Nat)
    (config : Config) (err : JsError) (r : AxiosResponse)
    (h : follow client net n config = .error err) (hr : err.response = some r) :
    ¬ (200 ≤ r.status ∧ r.status < 300) := by
  induction n generalizing config with
  | zero =>
    unfold follow at h
    cases hn : net config with
    | failure message =>
      simp only [hn] at h
      cases h
      cases hr
    | response a =>
      cases hl : redirectLocation a with
      | some location =>
        simp only [hn, hl] at h
        cases h
        cases hr
      | none =>
        simp only [hn, hl, validateStatus] at h
        split at h
        · cases h
        · cases h
          cases hr
          assumption
  | succ k ih =>
    unfold follow at h
    cases hn : net config with
    | failure message =>
      simp only [hn] at h
      cases h
      cases hr
    | response a =>
      cases hl : redirectLocation a with
      | some location =>
        simp only [hn, hl] at h
        exact ih _ h
      | none =>
        simp only [hn, hl, validateStatus] at h
        split at h
        · cases h
        · cases h
          cases hr
          assumption

theorem axios_error_status (client : Client) (net : Config → Upstream) (config : Config)
    (err : JsError) (r : AxiosResponse)
    (h : axios client net config = .error err) (hr : err.response = some r) :
    ¬ (200 ≤ r.status ∧ r.status < 300) :=
  follow_error_status client net _ config err r h hr

theorem axios_failure (client : Client) (net : Config → Upstream) (config : Config)
    (message : String) (h : net config = .failure message) :
    axios client net config = .error { message := message, response := none } :=
  follow_failure client net _ config message h

theorem axios_final (client : Client) (net : Config → Upstream) (config : Config)
    (r : AxiosResponse) (h : net config = .response r) (hr : redirectLocation r = none) :
    axios client net config = validateStatus r :=
  follow_final client net _ config r h hr

theorem axios_ok_of_2xx (client : Client) (net : Config → Upstream) (config : Config)
    (r : AxiosResponse) (h : net config = .response r)
    (hs : 200 ≤ r.status ∧ r.status < 300) :
    axios client net config = .ok r := by
  rw [axios_final client net config r h (redirectLocation_of_2xx r hs)]
  simp [validateStatus, hs]

theorem axios_ok_status (client : Client) (net : Config → Upstream) (config : Config)
    (r : AxiosResponse) (h : axios client net config = .ok r) :
    200 ≤ r.status ∧ r.status < 300 :=
  follow_ok_status client net _ config r h

theorem lookup_cons_eq (t : Headers) (k n : String) (v : HeaderValue) :
    List.lookup n ((k, v) :: t) = if n = k then some v else List.lookup n t := by
  by_cases hn : n = k
  · subst hn; simp [List.lookup]
  · have hb : (n == k) = false := by simpa using hn
    simp [List.lookup, hn, hb]

theorem lookup_filter (hs : Headers) (k n : String) :
    (hs.filter (fun h => decide (h.1 ≠ k))).lookup n =
      if n = k then none else hs.lookup n := by
  induction hs with
  | nil =>
    show List.lookup n [] = _
    by_cases hn : n = k <;> simp [hn, List.lookup]
  | cons a t ih =>
    obtain ⟨a1, a2⟩ := a
    by_cases ha : a1 = k
    · have hf : List.filter (fun h => decide (h.1 ≠ k)) ((a1, a2) :: t)
          = List.filter (fun h => decide (h.1 ≠ k)) t := by
        simp [List.filter, ha]
      rw [hf, ih, lookup_cons_eq]
      by_cases hn : n = k
      · simp [hn]
      · have : ¬ n = a1 := by rw [ha]; exact hn
        simp [hn, this]
    · have hf : List.filter (fun h => decide (h.1 ≠ k)) ((a1, a2) :: t)
          = (a1, a2) :: List.filter (fun h => decide (h.1 ≠ k)) t := by
        simp [List.filter, ha]
      rw [hf, lookup_cons_eq, ih, lookup_cons_eq]
      by_cases hn : n = a1
      · have : ¬ n = k := by rw [hn]; exact ha
        simp [hn, ha]
      · simp [hn]

theorem lookup_set (hs : Headers) (k n : String) (v : HeaderValue) :
    (hs.filter (fun h => decide (h.1 ≠ k)) ++ [(k, v)]).lookup n =
      if n = k then some v else hs.lookup n := by
  induction hs with
  | nil =>
    show List.lookup n [(k, v)] = _
    rw [lookup_cons_eq]
  | cons a t ih =>
    obtain ⟨a1, a2⟩ := a
    by_cases ha : a1 = k
    · have hf : List.filter (fun h => decide (h.1 ≠ k)) ((a1, a2) :: t)
          = List.filter (fun h => decide (h.1 ≠ k)) t := by
        simp [List.filter, ha]
      rw [hf, ih, lookup_cons_eq]
      by_cases hn : n = k
      · simp [hn]
      · have : ¬ n = a1 := by rw [ha]; exact hn
        simp [hn, this]
    · have hf : List.filter (fun h => decide (h.1 ≠ k)) ((a1, a2) :: t)
          = (a1, a2) :: List.filter (fun h => decide (h.1 ≠ k)) t := by
        simp [List.filter, ha]
      rw [hf, List.cons_append, lookup_cons_eq, ih, lookup_cons_eq]
      by_cases hn : n = a1
      · have : ¬ n = k := by rw [hn]; exact ha
        simp [hn, ha]
      · simp [hn]

theorem getHeader_setHeader (res : Res) (name n : String) (v : HeaderValue) :
    (res.setHeader name v).getHeader n =
      if lowerName n = lowerName name then some v else res.getHeader n := by
  unfold Res.setHeader Res.getHeader
  exact lookup_set res.headers (lowerName name) (lowerName n) v

theorem getHeader_removeHeader (res : Res) (name n : String) :
    (res.removeHeader name).getHeader n =
      if lowerName n = lowerName name then none else res.getHeader n := by
  unfold Res.removeHeader Res.getHeader
  exact lookup_filter res.headers (lowerName name) (lowerName n)

theorem getHeader_congr (res : Res) (a b : String) (h : lowerName a = lowerName b) :
    res.getHeader a = res.getHeader b := by
  unfold Res.getHeader
  rw [h]

theorem getHeader_foldl_of_not_mem (hs : Headers) (res : Res) (n : String)
    (h : lowerName n ∉ hs.map (fun e => lowerName e.1)) :
    (hs.foldl (fun r e => r.setHeader e.1 e.2) res).getHeader n = res.getHeader n := by
  induction hs generalizing res with
  | nil => rfl
  | cons a t ih =>
    simp only [List.map_cons, List.mem_cons, not_or] at h
    rw [List.foldl_cons, ih _ h.2, getHeader_setHeader, if_neg h.1]

theorem getHeader_foldl_cases (hs : Headers) (res : Res) (n : String) :
    (hs.foldl (fun r e => r.setHeader e.1 e.2) res).getHeader n = res.getHeader n ∨
      ∃ e ∈ hs, lowerName e.1 = lowerName n ∧
        (hs.foldl (fun r e => r.setHeader e.1 e.2) res).getHeader n = some e.2 := by
  induction hs generalizing res with
  | nil => exact Or.inl rfl
  | cons a t ih =>
    rw [List.foldl_cons]
    rcases ih (res.setHeader a.1 a.2) with h | ⟨e, he, hname, hval⟩
    · rw [h, getHeader_setHeader]
      by_cases hn : lowerName n = lowerName a.1
      · exact Or.inr ⟨a, List.mem_cons_self _ _, hn.symm, by simp [hn]⟩
      · exact Or.inl (by simp [hn])
    · exact Or.inr ⟨e, List.mem_cons_of_mem _ he, hname, hval⟩

theorem getHeader_foldl_of_mem (hs : Headers) (res : Res)
    (hnodup : (hs.map (fun e => lowerName e.1)).Nodup) (e : String × HeaderValue)
    (he : e ∈ hs) :
    (hs.foldl (fun r e => r.setHeader e.1 e.2) res).getHeader e.1 = some e.2 := by
  induction hs generalizing res with
  | nil => cases he
  | cons a t ih =>
    simp only [List.map_cons, List.nodup_cons] at hnodup
    rw [List.foldl_cons]
    rcases List.mem_cons.mp he with hea | het
    · subst hea
      rw [getHeader_foldl_of_not_mem _ _ _ hnodup.1, getHeader_setHeader, if_pos rfl]
    · exact ih _ hnodup.2 het

theorem entityHeaders_statusCode (res : Res) (ex : Express) (data : Bytes) :
    (res.entityHeaders ex data).statusCode = res.statusCode := by
  unfold Res.entityHeaders
  simp only []
  split <;> split <;> (try split) <;> rfl

theorem getHeader_entityHeaders (res : Res) (ex : Express) (data : Bytes) (n : String)
    (hlen : lowerName n ≠ "content-length")
    (htype : lowerName n = "content-type" → unset (res.getHeader n) = false)
    (htag : lowerName n = "etag" → unset (res.getHeader n) = false) :
    (res.entityHeaders ex data).getHeader n = res.getHeader n := by
  have hct : lowerName "Content-Type" = "content-type" := by decide
  have hcl : lowerName "Content-Length" = "content-length" := by decide
  have het : lowerName "ETag" = "etag" := by decide
  have key : ∀ (typed : Res), typed.getHeader n = res.getHeader n →
      (typed.getHeader "ETag" = res.getHeader "ETag" ∨ lowerName n ≠ "etag") →
      (if unset (typed.getHeader "ETag") then
          match ex.etag data with
          | some tag => (typed.setHeader "Content-Length"
              (.single (toString data.length))).setHeader "ETag" (.single tag)
          | none => typed.setHeader "Content-Length" (.single (toString data.length))
        else typed.setHeader "Content-Length" (.single (toString data.length))).getHeader n
        = res.getHeader n := by
    intro typed hn htg
    have hsized : (typed.setHeader "Content-Length"
        (.single (toString data.length))).getHeader n = res.getHeader n := by
      rw [getHeader_setHeader, hcl, if_neg hlen, hn]
    split
    · rename_i hu
      cases ex.etag data with
      | none => exact hsized
      | some tag =>
        show ((typed.setHeader "Content-Length" _).setHeader "ETag" _).getHeader n = _
        rw [getHeader_setHeader, het]
        by_cases hne : lowerName n = "etag"
        · exfalso
          have h1 := htag hne
          rcases htg with htg | htg
          · rw [getHeader_congr res n "ETag" (by rw [hne, het]), ← htg, hu] at h1
            cases h1
          · exact htg hne
        · rw [if_neg hne, hsized]
    · exact hsized
  unfold Res.entityHeaders
  simp only []
  by_cases hu : unset (res.getHeader "Content-Type") = true
  · rw [if_pos hu]
    apply key
    · rw [getHeader_setHeader, hct]
      by_cases hne : lowerName n = "content-type"
      · exfalso
        have h1 := htype hne
        rw [getHeader_congr res n "Content-Type" (by rw [hne, hct]), hu] at h1
        cases h1
      · rw [if_neg hne]
    · left
      rw [getHeader_setHeader, het, hct, if_neg (by decide)]
  · rw [if_neg hu]
    exact key res rfl (Or.inl rfl)

theorem reqFresh_of_status (ex : Express) (req : Req) (res : Res)
    (h : ¬ (200 ≤ res.statusCode ∧ res.statusCode < 300)) (h304 : res.statusCode ≠ 304) :
    reqFresh ex req res = false := by
  simp [reqFresh, h, h304]

theorem send_statusCode (res : Res) (ex : Express) (req : Req) (data : Bytes) :
    (res.send ex req data).statusCode =
      if reqFresh ex req (res.entityHeaders ex data) then 304 else res.statusCode := by
  unfold Res.send
  simp only []
  by_cases hf : reqFresh ex req (res.entityHeaders ex data) = true
  · simp only [hf, if_true]
    split <;> (try split) <;> rfl
  · simp only [hf, if_false, Bool.false_eq_true]
    split <;> (try split) <;> simp [Res.removeHeader, Res.setHeader, entityHeaders_statusCode]

theorem send_body (res : Res) (ex : Express) (req : Req) (data : Bytes) :
    (res.send ex req data).body =
      some (.buffer
        (if (res.send ex req data).statusCode = 204 ∨
            (res.send ex req data).statusCode = 304 ∨
            ((res.send ex req data).statusCode = 205 ∧ ex.resets205 = true) then []
        else data)) := by
  rw [send_statusCode]
  unfold Res.send
  simp only []
  by_cases hf : reqFresh ex req (res.entityHeaders ex data) = true
  · simp [hf, Res.status]
  · simp [hf, entityHeaders_statusCode]

theorem getHeader_send_other (res : Res) (ex : Express) (req : Req) (data : Bytes)
    (n : String) (h1 : lowerName n ≠ "content-type") (h2 : lowerName n ≠ "content-length")
    (h3 : lowerName n ≠ "etag") (h4 : lowerName n ≠ "transfer-encoding") :
    (res.send ex req data).getHeader n = res.getHeader n := by
  have hct : lowerName "Content-Type" = "content-type" := by decide
  have hcl : lowerName "Content-Length" = "content-length" := by decide
  have hte : lowerName "Transfer-Encoding" = "transfer-encoding" := by decide
  have hent : (res.entityHeaders ex data).getHeader n = res.getHeader n :=
    getHeader_entityHeaders res ex data n h2 (fun h => absurd h h1) (fun h => absurd h h3)
  have hchk : ∀ c : Res, c.getHeader n = res.getHeader n →
      (if c.statusCode = 204 ∨ c.statusCode = 304 then
          ((c.removeHeader "Content-Type").removeHeader "Content-Length").removeHeader
            "Transfer-Encoding"
        else if c.statusCode = 205 ∧ ex.resets205 = true then
          (c.setHeader "Content-Length" (.single "0")).removeHeader "Transfer-Encoding"
        else c).getHeader n = res.getHeader n := by
    intro c hc
    split
    · rw [getHeader_removeHeader, hte, if_neg h4, getHeader_removeHeader, hcl, if_neg h2,
        getHeader_removeHeader, hct, if_neg h1, hc]
    · split
      · rw [getHeader_removeHeader, hte, if_neg h4, getHeader_setHeader, hcl, if_neg h2, hc]
      · exact hc
  unfold Res.send
  simp only []
  show Res.getHeader _ n = _
  by_cases hf : reqFresh ex req (res.entityHeaders ex data) = true
  · simp only [hf, if_true]
    exact hchk ((res.entityHeaders ex data).status 304) hent
  · simp only [hf, if_false, Bool.false_eq_true]
    exact hchk (res.entityHeaders ex data) hent

theorem getHeader_send_plain (res : Res) (ex : Express) (req : Req) (data : Bytes)
    (n : String) (hstale : reqFresh ex req (res.entityHeaders ex data) = false)
    (h204 : res.statusCode ≠ 204) (h304 : res.statusCode ≠ 304) (h205 : res.statusCode ≠ 205) :
    (res.send ex req data).getHeader n = (res.entityHeaders ex data).getHeader n := by
  unfold Res.send
  simp only [hstale, if_false, Bool.false_eq_true, entityHeaders_statusCode, h204, h304, h205,
    false_or, false_and]
  rfl

theorem getHeader_catchBlock (ex : Express) (req : Req) (res : Res) (error : JsError)
    (n : String) (h1 : lowerName n ≠ "content-type") (h2 : lowerName n ≠ "content-length")
    (h3 : lowerName n ≠ "etag") (h4 : lowerName n ≠ "transfer-encoding") :
    (catchBlock ex req res error).getHeader n = res.getHeader n := by
  unfold catchBlock
  cases error.response with
  | none => rfl
  | some r =>
    show ((res.status r.status).send ex req r.data).getHeader n = _
    rw [getHeader_send_other _ ex req r.data n h1 h2 h3 h4]
    rfl

theorem getHeader_cors (res : Res) :
    (cors res).getHeader "Access-Control-Allow-Origin" = some (.single "*") := by
  unfold cors
  rw [getHeader_setHeader, if_pos rfl]

theorem expressJson_not_buffer (ex : Express) (jsonParse : Bytes → Option Json)
    (headers : List (String × String)) (rawBody : Bytes) (body : JsData)
    (h : expressJson ex jsonParse headers rawBody = some body) (bytes : Bytes) :
    body ≠ .buffer bytes := by
  have hun : ∀ b : JsData,
      some (if ex.emptyObjectBody = true then emptyObject else JsData.undefined) = some b →
      b ≠ .buffer bytes := by
    intro b hb
    cases hv : ex.emptyObjectBody <;> simp [hv, emptyObject] at hb <;> subst hb <;> simp
  unfold expressJson at h
  simp only [] at h
  split at h
  · exact hun body h
  · split at h
    · exact hun body h
    · split at h
      · split at h
        · cases h; simp [emptyObject]
        · cases hj : jsonParse rawBody with
          | none => simp [hj] at h
          | some j =>
            simp [hj] at h
            subst h
            simp
      · exact hun body h

theorem appendQuery_fold (keys : List String) (q : Query) (u : URL) :
    (keys.foldl
      (fun u key => if key ≠ "url" then u.append key (coerce (q.get key)) else u) u).searchParams
      = u.searchParams ++
        (keys.filter (fun k => decide (k ≠ "url"))).map (fun k => (k, coerce (q.get k))) := by
  induction keys generalizing u with
  | nil => simp
  | cons k t ih =>
    rw [List.foldl_cons, ih]
    by_cases hk : k = "url"
    · simp [hk]
    · simp [hk, URL.append, List.filter]

theorem appendQuery_searchParams (u : URL) (q : Query) :
    (appendQuery u q).searchParams =
      u.searchParams ++
        (q.keys.filter (fun k => decide (k ≠ "url"))).map (fun k => (k, coerce (q.get k))) :=
  appendQuery_fold q.keys q u

theorem handler_getHeader_cases (parseURL : String → Except String URL) (client : Client)
    (ex : Express) (net : Config → Upstream) (req : Req) (res : Res) (n : String)
    (h1 : lowerName n ≠ "content-type") (h2 : lowerName n ≠ "content-length")
    (h3 : lowerName n ≠ "etag") (h4 : lowerName n ≠ "transfer-encoding") :
    (proxyHandler parseURL client ex net req res).res.getHeader n = res.getHeader n ∨
      ∃ cfg r e, cfg ∈ (proxyHandler parseURL client ex net req res).issued ∧
        axios client net cfg = .ok r ∧
        (200 ≤ r.status ∧ r.status < 300) ∧ e ∈ r.headers ∧ lowerName e.1 = lowerName n ∧
        (proxyHandler parseURL client ex net req res).res.getHeader n = some e.2 := by
  cases ht : truthy (req.query.get "url") with
  | false =>
    rw [handler_missing parseURL client ex net req res ht]
    exact Or.inl rfl
  | true =>
    cases hp : parseURL (coerce (req.query.get "url")) with
    | error message =>
      rw [handler_invalid parseURL client ex net req res message ht hp]
      exact Or.inl (getHeader_catchBlock _ _ _ _ _ h1 h2 h3 h4)
    | ok u =>
      rw [handler_valid parseURL client ex net req res u ht hp]
      cases ha : axios client net (buildConfig req u) with
      | error err =>
        exact Or.inl (getHeader_catchBlock _ _ _ _ _ h1 h2 h3 h4)
      | ok r =>
        have hs := axios_ok_status client net _ r ha
        have hsend : (relay ex req res r).getHeader n = (copyHeaders res r).getHeader n := by
          unfold relay
          rw [getHeader_send_other _ ex req r.data n h1 h2 h3 h4]
          rfl
        show (relay ex req res r).getHeader n = _ ∨ _
        rcases getHeader_foldl_cases r.headers res n with h | ⟨e, he, hname, hval⟩
        · exact Or.inl (hsend.trans h)
        · exact Or.inr ⟨buildConfig req u, r, e, List.mem_singleton.mpr rfl, ha, hs, he,
            hname, hsend.trans hval⟩

theorem handler_relays_header (parseURL : String → Except String URL) (client : Client)
    (ex : Express) (net : Config → Upstream) (req : Req) (res : Res) (cfg : Config)
    (r : AxiosResponse) (e : String × HeaderValue)
    (h1 : lowerName e.1 ≠ "content-type") (h2 : lowerName e.1 ≠ "content-length")
    (h3 : lowerName e.1 ≠ "etag") (h4 : lowerName e.1 ≠ "transfer-encoding")
    (hcfg : cfg ∈ (proxyHandler parseURL client ex net req res).issued)
    (haxios : axios client net cfg = .ok r)
    (hkeys : (r.headers.map (fun e => lowerName e.1)).Nodup)
    (he : e ∈ r.headers) :
    (proxyHandler parseURL client ex net req res).res.getHeader e.1 = some e.2 := by
  cases ht : truthy (req.query.get "url") with
  | false =>
    rw [handler_missing parseURL client ex net req res ht] at hcfg
    cases hcfg
  | true =>
    cases hp : parseURL (coerce (req.query.get "url")) with
    | error message =>
      rw [handler_invalid parseURL client ex net req res message ht hp] at hcfg
      cases hcfg
    | ok u =>
      rw [handler_valid parseURL client ex net req res u ht hp] at hcfg ⊢
      have hc : cfg = buildConfig req u := List.mem_singleton.mp hcfg
      subst hc
      simp only [haxios, relay]
      rw [getHeader_send_other _ ex req r.data e.1 h1 h2 h3 h4]
      exact getHeader_foldl_of_mem r.headers res hkeys e he

theorem reqFresh_of_unconditional (ex : Express) (req : Req) (res : Res)
    (h1 : present req.headers "if-modified-since" = false)
    (h2 : present req.headers "if-none-match" = false) :
    reqFresh ex req res = false := by
  simp [reqFresh, h1, h2]

theorem getHeader_entityHeaders_type (res : Res) (ex : Express) (data : Bytes)
    (h : unset (res.getHeader "Content-Type") = true) :
    (res.entityHeaders ex data).getHeader "Content-Type" =
      some (.single "application/octet-stream") := by
  have hct : lowerName "Content-Type" = "content-type" := by decide
  have hcl : lowerName "Content-Length" = "content-length" := by decide
  have het : lowerName "ETag" = "etag" := by decide
  unfold Res.entityHeaders
  simp only [h, if_true]
  have hsized : ((res.setHeader "Content-Type" (.single "application/octet-stream")).setHeader
      "Content-Length" (.single (toString data.length))).getHeader "Content-Type" =
      some (.single "application/octet-stream") := by
    rw [getHeader_setHeader, hct, hcl, if_neg (by decide), getHeader_setHeader, if_pos rfl]
  split
  · cases ex.etag data with
    | none => exact hsized
    | some tag =>
      show (Res.setHeader _ "ETag" _).getHeader "Content-Type" = _
      rw [getHeader_setHeader, hct, het, if_neg (by decide), hsized]
  · exact hsized

theorem getHeader_entityHeaders_length (res : Res) (ex : Express) (data : Bytes) :
    (res.entityHeaders ex data).getHeader "Content-Length" =
      some (.single (toString data.length)) := by
  have hcl : lowerName "Content-Length" = "content-length" := by decide
  have het : lowerName "ETag" = "etag" := by decide
  have hsized : ∀ typed : Res, (typed.setHeader "Content-Length"
      (.single (toString data.length))).getHeader "Content-Length" =
      some (.single (toString data.length)) := by
    intro typed
    rw [getHeader_setHeader, if_pos rfl]
  have key : ∀ typed : Res,
      (if unset (typed.getHeader "ETag") then
          match ex.etag data with
          | some tag => (typed.setHeader "Content-Length"
              (.single (toString data.length))).setHeader "ETag" (.single tag)
          | none => typed.setHeader "Content-Length" (.single (toString data.length))
        else typed.setHeader "Content-Length"
          (.single (toString data.length))).getHeader "Content-Length"
        = some (.single (toString data.length)) := by
    intro typed
    split
    · cases ex.etag data with
      | none => exact hsized typed
      | some tag =>
        show (Res.setHeader _ "ETag" _).getHeader "Content-Length" = _
        rw [getHeader_setHeader, hcl, het, if_neg (by decide), hsized]
    · exact hsized typed
  unfold Res.entityHeaders
  simp only []
  exact key _

/-! ## Building the outbound URL -/

/-- C1: at the request `GET /proxy?url=http://example.com/&a=1&a=2`, whose
`req.query` is `{url: 'http://example.com/', a: ['1', '2']}`, the handler
issues one outbound request and its URL is `http://example.com/?a=1%2C2`: the
search parameters appended to the target are the single entry `a` with the
value `1,2` (the two inbound values joined by a comma), not the two entries
`a=1` and `a=2`. -/
theorem repeated_key_forwarded_joined (client : Client) (ex : Express)
    (net : Config → Upstream) (res : Res) :
    (proxyHandler parseHttpUrl client ex net repeatedKeyRequest res).issued.map Config.url =
        ["http://example.com/?a=1%2C2"] ∧
      (appendQuery { base := "http://example.com/", query := none, searchParams := [], hash := "" }
        repeatedKeyRequest.query).searchParams = [("a", "1,2")] ∧
      [("a", "1,2")] ≠ [("a", "1"), ("a", "2")] := by
  refine ⟨?_, by rfl, by decide⟩
  rw [handler_valid parseHttpUrl client ex net repeatedKeyRequest res
    { base := "http://example.com/", query := none, searchParams := [], hash := "" }
    (by rfl) (by rfl)]
  rfl

/-! ## Client-input errors -/

/-- C2: when `req.query.url` is absent or is the empty string, the handler
answers with status 400 and a JSON object whose only field is `error`, and it
issues no outbound request. -/
theorem missing_target_is_400 (parseURL : String → Except String URL) (client : Client)
    (ex : Express) (net : Config → Upstream) (req : Req) (res : Res)
    (h : req.query.get "url" = none ∨ req.query.get "url" = some (.str "")) :
    (proxyHandler parseURL client ex net req res).res.statusCode = 400 ∧
      (proxyHandler parseURL client ex net req res).res.body =
        some (.json [("error", "Falta el parámetro \"url\" en la solicitud.")]) ∧
      (proxyHandler parseURL client ex net req res).issued = [] := by
  have ht : truthy (req.query.get "url") = false := by
    rcases h with h | h <;> rw [h] <;> rfl
  rw [handler_missing parseURL client ex net req res ht]
  exact ⟨rfl, rfl, rfl⟩

/-- Witness for C2: the request `GET /proxy?a=1` has no `url` parameter. -/
theorem missing_target_is_400_witness :
    (Query.get [("a", QValue.str "1")] "url" = none ∨
        Query.get [("a", QValue.str "1")] "url" = some (.str "")) ∧
      (proxyHandler parseHttpUrl sampleClient expressFour refuses
          { method := "GET", query := [("a", .str "1")], headers := [], body := emptyObject }
          Res.initial).res.statusCode = 400 ∧
      (proxyHandler parseHttpUrl sampleClient expressFour refuses
          { method := "GET", query := [("a", .str "1")], headers := [], body := emptyObject }
          Res.initial).res.body =
        some (.json [("error", "Falta el parámetro \"url\" en la solicitud.")]) ∧
      (proxyHandler parseHttpUrl sampleClient expressFour refuses
          { method := "GET", query := [("a", .str "1")], headers := [], body := emptyObject }
          Res.initial).issued = [] :=
  ⟨Or.inl rfl,
    missing_target_is_400 parseHttpUrl sampleClient expressFour refuses
      { method := "GET", query := [("a", .str "1")], headers := [], body := emptyObject }
      Res.initial (Or.inl rfl)⟩

/-- C5, as stated, fails: the request `GET /proxy?url=not%20a%20url` has a
non-empty target that does not parse, and the handler answers with status
500, not 400. -/
theorem unparsable_target_is_not_400 :
    truthy (badTargetRequest.query.get "url") = true ∧
      parseHttpUrl (coerce (badTargetRequest.query.get "url")) = .error "Invalid URL" ∧
      (proxyHandler parseHttpUrl sampleClient expressFour refuses badTargetRequest
        Res.initial).res.statusCode = 500 ∧
      (proxyHandler parseHttpUrl sampleClient expressFour refuses badTargetRequest
        Res.initial).res.statusCode ≠ 400 :=
  ⟨by rfl, by rfl, by rfl, by decide⟩

/-- C5, amended: when `req.query.url` is non-empty and `new URL` throws on it,
no outbound request is issued and the handler answers with status 500 and the
JSON object `{error: 'Error interno del proxy', details: <message of the
thrown error>}`. -/
theorem unparsable_target_is_500 (parseURL : String → Except String URL) (client : Client)
    (ex : Express) (net : Config → Upstream) (req : Req) (res : Res) (message : String)
    (hurl : truthy (req.query.get "url") = true)
    (hparse : parseURL (coerce (req.query.get "url")) = .error message) :
    (proxyHandler parseURL client ex net req res).issued = [] ∧
      (proxyHandler parseURL client ex net req res).res.statusCode = 500 ∧
      (proxyHandler parseURL client ex net req res).res.body =
        some (.json [("error", "Error interno del proxy"), ("details", message)]) := by
  rw [handler_invalid parseURL client ex net req res message hurl hparse]
  exact ⟨rfl, rfl, rfl⟩

/-- Witness for the amended C5 at `GET /proxy?url=not%20a%20url`. -/
theorem unparsable_target_is_500_witness :
    truthy (badTargetRequest.query.get "url") = true ∧
      parseHttpUrl (coerce (badTargetRequest.query.get "url")) = .error "Invalid URL" ∧
      (proxyHandler parseHttpUrl sampleClient expressFour refuses badTargetRequest
        Res.initial).issued = [] ∧
      (proxyHandler parseHttpUrl sampleClient expressFour refuses badTargetRequest
        Res.initial).res.statusCode = 500 ∧
      (proxyHandler parseHttpUrl sampleClient expressFour refuses badTargetRequest
        Res.initial).res.body =
        some (.json [("error", "Error interno del proxy"), ("details", "Invalid URL")]) :=
  ⟨by rfl, by rfl,
    unparsable_target_is_500 parseHttpUrl sampleClient expressFour refuses badTargetRequest
      Res.initial "Invalid URL" (by rfl) (by rfl)⟩

/-! ## Answers of the target -/

/-- C3, as stated, fails: the target answers the outbound request with the
status 302, a `location` header and the body `gone`; the client follows the
redirect, and the handler answers with the status 200 and the body `here` of
the answer found at the new location, not with 302 and `gone`. -/
theorem redirect_answer_not_relayed :
    (proxyHandler parseHttpUrl sampleClient expressFour answersMoved plainRequest
        Res.initial).issued = [buildConfig plainRequest exampleUrl] ∧
      answersMoved (buildConfig plainRequest exampleUrl) = .response answer302 ∧
      ¬ (200 ≤ answer302.status ∧ answer302.status < 300) ∧
      (proxyHandler parseHttpUrl sampleClient expressFour answersMoved plainRequest
        Res.initial).res.statusCode = 200 ∧
      (proxyHandler parseHttpUrl sampleClient expressFour answersMoved plainRequest
        Res.initial).res.body = some (.buffer here) ∧
      200 ≠ answer302.status ∧ here ≠ answer302.data :=
  ⟨by rfl, by rfl, by decide, by rfl, by rfl, by decide, by decide⟩

/-- C3, amended: when the target is valid and the HTTP client hands over an
answer with a status outside 2xx (an answer that redirects the client, a 3xx
with a `location` header, is followed and not handed over), the handler
answers with exactly that status and with exactly that body.  A 304 answer
has no body. -/
theorem upstream_error_passthrough (parseURL : String → Except String URL) (client : Client)
    (ex : Express) (net : Config → Upstream) (req : Req) (res : Res) (u : URL)
    (err : JsError) (r : AxiosResponse)
    (hurl : truthy (req.query.get "url") = true)
    (hparse : parseURL (coerce (req.query.get "url")) = .ok u)
    (haxios : axios client net (buildConfig req u) = .error err)
    (hresp : err.response = some r)
    (hbody : r.status = 304 → r.data = []) :
    ¬ (200 ≤ r.status ∧ r.status < 300) ∧
      (proxyHandler parseURL client ex net req res).res.statusCode = r.status ∧
      (proxyHandler parseURL client ex net req res).res.body = some (.buffer r.data) := by
  have hcode := axios_error_status client net _ err r haxios hresp
  rw [handler_valid parseURL client ex net req res u hurl hparse]
  simp only [haxios, catchBlock, hresp]
  have hst : ((res.status r.status).send ex req r.data).statusCode = r.status := by
    rw [send_statusCode]
    by_cases h304 : r.status = 304
    · simp [Res.status, h304]
    · rw [reqFresh_of_status]
      · rfl
      · rw [entityHeaders_statusCode]
        exact hcode
      · rw [entityHeaders_statusCode]
        exact h304
  refine ⟨hcode, hst, ?_⟩
  rw [send_body, hst]
  by_cases h304 : r.status = 304
  · simp [h304, hbody h304]
  · have h204 : r.status ≠ 204 := by omega
    have h205 : r.status ≠ 205 := by omega
    simp [h304, h204, h205]

/-- Witness for the amended C3: a target answering 404 with the body
`not found`. -/
theorem upstream_error_passthrough_witness :
    truthy (plainRequest.query.get "url") = true ∧
      parseHttpUrl (coerce (plainRequest.query.get "url")) = .ok exampleUrl ∧
      axios sampleClient answers404 (buildConfig plainRequest exampleUrl) =
        .error { message := "Request failed with status code 404", response := some answer404 } ∧
      ¬ (200 ≤ answer404.status ∧ answer404.status < 300) ∧
      (proxyHandler parseHttpUrl sampleClient expressFour answers404 plainRequest
        Res.initial).res.statusCode = answer404.status ∧
      (proxyHandler parseHttpUrl sampleClient expressFour answers404 plainRequest
        Res.initial).res.body = some (.buffer answer404.data) :=
  ⟨by rfl, by rfl, by rfl,
    upstream_error_passthrough parseHttpUrl sampleClient expressFour answers404 plainRequest
      Res.initial exampleUrl
      { message := "Request failed with status code 404", response := some answer404 }
      answer404 (by rfl) (by rfl) (by rfl) (by rfl) (by decide)⟩

/-- C4, as stated, fails in six ways.  (1) The request is a `GET` with
`If-None-Match: "v1"` and the target answers 200 with `etag: "v1"` and the
body `here`: Express judges the request fresh, and the handler answers with
the status 304 and an empty body.  (2) The target answers 204 with
`content-type: text/plain`: the response has no `Content-Type`.  (3) The
target answers 205 with `transfer-encoding: chunked`: the response has no
`Transfer-Encoding`.  (4) The target answers 200 with `content-length: 20`
and a body of nine bytes: the `Content-Length` of the response is `9`.
(5) The target answers 200 with an empty `content-type`: the `Content-Type`
of the response is `application/octet-stream`.  (6) The target answers 200
with an empty `etag` and Express generates a tag: the `ETag` of the response
is the generated tag. -/
theorem success_answer_not_verbatim :
    (axios sampleClient answersTagged (buildConfig conditionalRequest exampleUrl) =
        .ok answerTagged ∧
      (proxyHandler parseHttpUrl sampleClient expressFour answersTagged conditionalRequest
        Res.initial).res.statusCode = 304 ∧
      (proxyHandler parseHttpUrl sampleClient expressFour answersTagged conditionalRequest
        Res.initial).res.body = some (.buffer []) ∧
      304 ≠ answerTagged.status ∧ [] ≠ answerTagged.data) ∧
    ((proxyHandler parseHttpUrl sampleClient expressFour (fun _ => .response answer204)
        plainRequest Res.initial).res.getHeader "content-type" = none ∧
      answer204.headers.lookup "content-type" = some (.single "text/plain")) ∧
    ((proxyHandler parseHttpUrl sampleClient expressFour (fun _ => .response answer205)
        plainRequest Res.initial).res.getHeader "transfer-encoding" = none ∧
      answer205.headers.lookup "transfer-encoding" = some (.single "chunked")) ∧
    ((proxyHandler parseHttpUrl sampleClient expressFour (fun _ => .response answerCompressed)
        plainRequest Res.initial).res.getHeader "content-length" = some (.single "9") ∧
      answerCompressed.headers.lookup "content-length" = some (.single "20")) ∧
    ((proxyHandler parseHttpUrl sampleClient expressFour (fun _ => .response answerUntyped)
        plainRequest Res.initial).res.getHeader "content-type" =
        some (.single "application/octet-stream") ∧
      answerUntyped.headers.lookup "content-type" = some (.single "")) ∧
    ((proxyHandler parseHttpUrl sampleClient expressTagging (fun _ => .response answerUntagged)
        plainRequest Res.initial).res.getHeader "etag" = some (.single "W/\"4-sample\"") ∧
      answerUntagged.headers.lookup "etag" = some (.single "")) :=
  ⟨⟨by rfl, by rfl, by rfl, by decide, by decide⟩, ⟨by rfl, by rfl⟩, ⟨by rfl, by rfl⟩,
    ⟨by rfl, by rfl⟩, ⟨by rfl, by rfl⟩, ⟨by rfl, by rfl⟩⟩

/-- C4, amended: when the target is valid, the HTTP client hands over an
answer with a status from 200 to 299 other than 204 and 205, and Express does
not judge the request fresh against that answer, the handler answers with
that status and with that body; every header
of the answer other than `content-length` is on the response with the value
the target gave, whatever headers the response carried before (a header
already set under the same name is replaced), except that an empty
`content-type` or `etag` is filled in by `res.send`; and `Content-Length` is
the length of the body handed over.  The names of `response.headers` are the
distinct keys of an object, lower-cased by Node. -/
theorem upstream_success_relayed (parseURL : String → Except String URL) (client : Client)
    (ex : Express) (net : Config → Upstream) (req : Req) (res : Res) (u : URL)
    (r : AxiosResponse)
    (hurl : truthy (req.query.get "url") = true)
    (hparse : parseURL (coerce (req.query.get "url")) = .ok u)
    (haxios : axios client net (buildConfig req u) = .ok r)
    (h204 : r.status ≠ 204) (h205 : r.status ≠ 205)
    (hstale : reqFresh ex req
      (((copyHeaders res r).status r.status).entityHeaders ex r.data) = false)
    (hkeys : (r.headers.map (fun e => lowerName e.1)).Nodup) :
    (200 ≤ r.status ∧ r.status < 300) ∧
      (proxyHandler parseURL client ex net req res).res.statusCode = r.status ∧
      (proxyHandler parseURL client ex net req res).res.body =
        some (.buffer r.data) ∧
      (∀ e ∈ r.headers, lowerName e.1 ≠ "content-length" →
        (e.2 = .single "" → lowerName e.1 ≠ "content-type" ∧ lowerName e.1 ≠ "etag") →
        (proxyHandler parseURL client ex net req res).res.getHeader e.1 = some e.2) ∧
      (proxyHandler parseURL client ex net req res).res.getHeader "Content-Length" =
        some (.single (toString r.data.length)) := by
  have h2xx := axios_ok_status client net _ r haxios
  have h304 : r.status ≠ 304 := by omega
  rw [handler_valid parseURL client ex net req res u hurl hparse]
  simp only [haxios, relay]
  have hst : (((copyHeaders res r).status r.status).send ex req r.data).statusCode
      = r.status := by
    rw [send_statusCode, hstale]
    rfl
  refine ⟨h2xx, hst, ?_, ?_, ?_⟩
  · rw [send_body, hst]
    simp [h204, h304, h205]
  · intro e he hlen hempty
    have hcopy : ((copyHeaders res r).status r.status).getHeader e.1 = some e.2 :=
      getHeader_foldl_of_mem r.headers res hkeys e he
    have hset : (lowerName e.1 = "content-type" ∨ lowerName e.1 = "etag") →
        unset (some e.2) = false := by
      intro hname
      cases hv : e.2 with
      | multi vs => rfl
      | single v =>
        by_cases hv0 : v = ""
        · subst hv0
          have hne := hempty hv
          rcases hname with hname | hname
          · exact absurd hname hne.1
          · exact absurd hname hne.2
        · simp [unset, hv0]
    rw [getHeader_send_plain _ ex req r.data e.1 hstale h204 h304 h205,
      getHeader_entityHeaders _ ex r.data e.1 hlen, hcopy]
    · intro hname; rw [hcopy]; exact hset (Or.inl hname)
    · intro hname; rw [hcopy]; exact hset (Or.inr hname)
  · rw [getHeader_send_plain _ ex req r.data _ hstale h204 h304 h205,
      getHeader_entityHeaders_length]

/-- Witness for the amended C4: the response already carries the header set
by `cors()` and the target answers 200 with a header of the same name. -/
theorem upstream_success_relayed_witness :
    truthy (plainRequest.query.get "url") = true ∧
      parseHttpUrl (coerce (plainRequest.query.get "url")) = .ok exampleUrl ∧
      axios sampleClient answersOwnOrigin (buildConfig plainRequest exampleUrl) =
        .ok answerOwnOrigin ∧
      (cors Res.initial).getHeader "access-control-allow-origin" = some (.single "*") ∧
      (proxyHandler parseHttpUrl sampleClient expressFour answersOwnOrigin plainRequest
        (cors Res.initial)).res.statusCode = answerOwnOrigin.status ∧
      (proxyHandler parseHttpUrl sampleClient expressFour answersOwnOrigin plainRequest
        (cors Res.initial)).res.body =
        some (.buffer answerOwnOrigin.data) ∧
      (∀ e ∈ answerOwnOrigin.headers, lowerName e.1 ≠ "content-length" →
        (e.2 = .single "" → lowerName e.1 ≠ "content-type" ∧ lowerName e.1 ≠ "etag") →
        (proxyHandler parseHttpUrl sampleClient expressFour answersOwnOrigin plainRequest
          (cors Res.initial)).res.getHeader e.1 = some e.2) ∧
      (proxyHandler parseHttpUrl sampleClient expressFour answersOwnOrigin plainRequest
        (cors Res.initial)).res.getHeader "Content-Length" =
        some (.single (toString answerOwnOrigin.data.length)) :=
  ⟨by rfl, by rfl, by rfl, by rfl,
    (upstream_success_relayed parseHttpUrl sampleClient expressFour answersOwnOrigin
      plainRequest (cors Res.initial) exampleUrl answerOwnOrigin
      (by rfl) (by rfl) (by rfl) (by decide) (by decide) (by rfl) (by decide)).2⟩

/-- C9: a target answering 404 with the headers `content-type: text/plain`
and `x-upstream: origin-1` and the body `not found`: the response of the
handler has status 404 and that body, but it has no `x-upstream` header and
its `Content-Type` is the default `application/octet-stream` of `res.send`,
not the `text/plain` of the target; the same answer with status 200 is
relayed with both headers as the target gave them. -/
theorem error_answer_headers_not_copied (client : Client) (ex : Express) :
    (proxyHandler parseHttpUrl client ex answers404 plainRequest Res.initial).res.statusCode
        = 404 ∧
      (proxyHandler parseHttpUrl client ex answers404 plainRequest Res.initial).res.body =
        some (.buffer notFound) ∧
      (proxyHandler parseHttpUrl client ex answers404 plainRequest Res.initial).res.getHeader
        "x-upstream" = none ∧
      (proxyHandler parseHttpUrl client ex answers404 plainRequest Res.initial).res.getHeader
        "content-type" = some (.single "application/octet-stream") ∧
      (proxyHandler parseHttpUrl client ex answers200 plainRequest Res.initial).res.getHeader
        "x-upstream" = some (.single "origin-1") ∧
      (proxyHandler parseHttpUrl client ex answers200 plainRequest Res.initial).res.getHeader
        "content-type" = some (.single "text/plain") := by
  have h404 : axios client answers404 (buildConfig plainRequest exampleUrl) =
      .error { message := "Request failed with status code 404", response := some answer404 } := by
    rw [axios_final client answers404 _ answer404 rfl (by rfl)]
    rfl
  have h200 : axios client answers200 (buildConfig plainRequest exampleUrl) =
      .ok { answer404 with status := 200 } :=
    axios_ok_of_2xx client answers200 _ { answer404 with status := 200 } rfl (by decide)
  have hstale : ∀ res : Res, reqFresh ex plainRequest res = false :=
    fun res => reqFresh_of_unconditional ex plainRequest res (by rfl) (by rfl)
  rw [handler_valid parseHttpUrl client ex answers404 plainRequest Res.initial exampleUrl
      (by rfl) (by rfl),
    handler_valid parseHttpUrl client ex answers200 plainRequest Res.initial exampleUrl
      (by rfl) (by rfl)]
  simp only [h404, h200, catchBlock, relay]
  have hst : ((Res.initial.status answer404.status).send ex plainRequest
      answer404.data).statusCode = 404 := by
    rw [send_statusCode, hstale]
    rfl
  refine ⟨hst, ?_, ?_, ?_, ?_, ?_⟩
  · rw [send_body, hst]
    rfl
  · rw [getHeader_send_other _ ex plainRequest _ "x-upstream" (by decide) (by decide)
      (by decide) (by decide)]
    rfl
  · rw [getHeader_send_plain _ ex plainRequest _ "content-type" (hstale _) (by decide)
      (by decide) (by decide),
      getHeader_congr _ "content-type" "Content-Type" (by decide),
      getHeader_entityHeaders_type _ ex _ (by rfl)]
  · rw [getHeader_send_plain _ ex plainRequest _ "x-upstream" (hstale _) (by decide)
      (by decide) (by decide),
      getHeader_entityHeaders _ ex _ "x-upstream" (by decide)
        (fun h => absurd h (by decide)) (fun h => absurd h (by decide))]
    rfl
  · rw [getHeader_send_plain _ ex plainRequest _ "content-type" (hstale _) (by decide)
      (by decide) (by decide),
      getHeader_entityHeaders _ ex _ "content-type" (by decide)
        (fun _ => by rfl) (fun h => absurd h (by decide))]
    rfl

/-- C6: when the target is valid and the outbound call fails without any
answer, the handler answers with status 500 and the JSON object
`{error: 'Error interno del proxy', details: <message of the failure>}`. -/
theorem transport_failure_is_500 (parseURL : String → Except String URL) (client : Client)
    (ex : Express) (net : Config → Upstream) (req : Req) (res : Res) (u : URL)
    (message : String)
    (hurl : truthy (req.query.get "url") = true)
    (hparse : parseURL (coerce (req.query.get "url")) = .ok u)
    (hnet : net (buildConfig req u) = .failure message) :
    (proxyHandler parseURL client ex net req res).res.statusCode = 500 ∧
      (proxyHandler parseURL client ex net req res).res.body =
        some (.json [("error", "Error interno del proxy"), ("details", message)]) := by
  rw [handler_valid parseURL client ex net req res u hurl hparse,
    axios_failure client net _ message hnet]
  exact ⟨rfl, rfl⟩

/-- Witness for C6: a refused connection. -/
theorem transport_failure_is_500_witness :
    truthy (plainRequest.query.get "url") = true ∧
      parseHttpUrl (coerce (plainRequest.query.get "url")) =
        .ok { base := "http://example.com/", query := none, searchParams := [], hash := "" } ∧
      (proxyHandler parseHttpUrl sampleClient expressFour refuses plainRequest
        Res.initial).res.statusCode = 500 ∧
      (proxyHandler parseHttpUrl sampleClient expressFour refuses plainRequest
        Res.initial).res.body =
        some (.json [("error", "Error interno del proxy"),
          ("details", "connect ECONNREFUSED 93.184.216.34:80")]) :=
  ⟨by rfl, by rfl,
    transport_failure_is_500 parseHttpUrl sampleClient expressFour refuses plainRequest
      Res.initial
      { base := "http://example.com/", query := none, searchParams := [], hash := "" }
      "connect ECONNREFUSED 93.184.216.34:80" (by rfl) (by rfl) (by rfl)⟩

/-! ## The outbound request -/

/-- C7: the request `POST /proxy?url=http://example.com/` with content type
`application/octet-stream` and body bytes `FF 00` reaches the handler and one
outbound `POST` is issued, but its data is what the JSON body parser left in
`req.body` for a body it does not read (the empty object `{}` under
Express 4, `undefined` under Express 5), not the two inbound bytes. -/
theorem binary_body_not_forwarded (jsonParse : Bytes → Option Json) (client : Client)
    (net : Config → Upstream) (res : Res) :
    (app parseHttpUrl jsonParse client expressFour net binaryPost res).map
        (fun out => out.issued.map Config.method) = some ["POST"] ∧
      (app parseHttpUrl jsonParse client expressFour net binaryPost res).map
        (fun out => out.issued.map Config.data) = some [JsData.value (.obj [])] ∧
      (app parseHttpUrl jsonParse client expressFive net binaryPost res).map
        (fun out => out.issued.map Config.data) = some [JsData.undefined] ∧
      JsData.value (.obj []) ≠ JsData.buffer binaryPost.rawBody ∧
      JsData.undefined ≠ JsData.buffer binaryPost.rawBody := by
  have h4 : app parseHttpUrl jsonParse client expressFour net binaryPost res =
      some (proxyHandler parseHttpUrl client expressFour net
        { method := "POST", query := binaryPost.query, headers := binaryPost.headers
          body := emptyObject } (cors res)) := by rfl
  have h5 : app parseHttpUrl jsonParse client expressFive net binaryPost res =
      some (proxyHandler parseHttpUrl client expressFive net
        { method := "POST", query := binaryPost.query, headers := binaryPost.headers
          body := JsData.undefined } (cors res)) := by rfl
  rw [h4, h5,
    handler_valid parseHttpUrl client expressFour net _ (cors res) exampleUrl (by rfl) (by rfl),
    handler_valid parseHttpUrl client expressFive net _ (cors res) exampleUrl (by rfl) (by rfl)]
  exact ⟨rfl, rfl, rfl, by simp, by simp⟩

/-- C8, as stated, fails in two ways.  (1) The request carries a `User-Agent`
header with an empty value, and the outbound `User-Agent` is the default
`Node.js Proxy`, not the inbound value.  (2) Two `POST` requests with the same
body that differ only in their `Content-Type` header (`application/json` and
`text/plain`) produce outbound requests with different data: the JSON body
parser reads the body of the first and leaves `{}` for the second. -/
theorem empty_agent_and_content_type :
    (emptyAgentRequest.headers.lookup "user-agent" = some "" ∧
      (proxyHandler parseHttpUrl sampleClient expressFour refuses emptyAgentRequest
        Res.initial).issued.map Config.headers =
        [[("User-Agent", some "Node.js Proxy"), ("Host", none)]] ∧
      (some "Node.js Proxy" : Option String) ≠ some "") ∧
    ((app parseHttpUrl readsJsonText sampleClient expressFour refuses jsonPost
        Res.initial).map (fun out => out.issued.map Config.data) =
        some [JsData.value (.obj [("a", .num "1")])] ∧
      (app parseHttpUrl readsJsonText sampleClient expressFour refuses textPost
        Res.initial).map (fun out => out.issued.map Config.data) =
        some [JsData.value (.obj [])] ∧
      JsData.value (.obj [("a", .num "1")]) ≠ JsData.value (.obj [])) :=
  ⟨⟨by rfl, by rfl, by decide⟩, ⟨by rfl, by rfl, by simp⟩⟩

/-- C8, amended: for a request with a valid target, the headers put on the one
outbound request are exactly `User-Agent` and a `Host` left undefined;
`User-Agent` is the inbound `User-Agent` when the request has a non-empty one,
and the default `Node.js Proxy` when it has none or an empty one; the handler
uses no other inbound header, so a second request with the same method, query
and `req.body` that differs from the first only in headers other than
`User-Agent` produces the same outbound request. -/
theorem outbound_headers (parseURL : String → Except String URL) (client : Client)
    (ex : Express) (net : Config → Upstream) (req : Req) (res : Res) (u : URL)
    (hurl : truthy (req.query.get "url") = true)
    (hparse : parseURL (coerce (req.query.get "url")) = .ok u) :
    (proxyHandler parseURL client ex net req res).issued.map Config.headers =
        [[("User-Agent",
            some (match req.headers.lookup "user-agent" with
              | some ua => if ua = "" then "Node.js Proxy" else ua
              | none => "Node.js Proxy")),
          ("Host", none)]] ∧
      ∀ (other : Req) (net2 : Config → Upstream) (res2 : Res),
        other.method = req.method → other.query = req.query → other.body = req.body →
        other.headers.lookup "user-agent" = req.headers.lookup "user-agent" →
        (proxyHandler parseURL client ex net2 other res2).issued =
          (proxyHandler parseURL client ex net req res).issued := by
  refine ⟨?_, ?_⟩
  · rw [handler_valid parseURL client ex net req res u hurl hparse]
    simp only [List.map, buildConfig, userAgent]
    cases req.headers.lookup "user-agent" <;> rfl
  · intro other net2 res2 hm hq hb hua
    rw [handler_valid parseURL client ex net req res u hurl hparse,
      handler_valid parseURL client ex net2 other res2 u (by rw [hq]; exact hurl)
        (by rw [hq]; exact hparse)]
    simp only [buildConfig, userAgent, hm, hq, hb, hua]

/-- Witness for the amended C8: a request with a `User-Agent` and an `Accept`
header, and the same request with another `Accept` header. -/
theorem outbound_headers_witness :
    truthy (Query.get [("url", QValue.str "http://example.com/")] "url") = true ∧
      parseHttpUrl (coerce (Query.get [("url", QValue.str "http://example.com/")] "url")) =
        .ok exampleUrl ∧
      (proxyHandler parseHttpUrl sampleClient expressFour refuses
          { method := "GET", query := [("url", .str "http://example.com/")]
            headers := [("accept", "*/*"), ("user-agent", "VLC/3.0.18")], body := emptyObject }
          Res.initial).issued.map Config.headers =
        [[("User-Agent", some "VLC/3.0.18"), ("Host", none)]] ∧
      (proxyHandler parseHttpUrl sampleClient expressFour answers404
          { method := "GET", query := [("url", .str "http://example.com/")]
            headers := [("accept", "audio/mpegurl"), ("user-agent", "VLC/3.0.18")]
            body := emptyObject }
          (cors Res.initial)).issued =
        (proxyHandler parseHttpUrl sampleClient expressFour refuses
          { method := "GET", query := [("url", .str "http://example.com/")]
            headers := [("accept", "*/*"), ("user-agent", "VLC/3.0.18")], body := emptyObject }
          Res.initial).issued :=
  ⟨by rfl, by rfl,
    (outbound_headers parseHttpUrl sampleClient expressFour refuses
      { method := "GET", query := [("url", .str "http://example.com/")]
        headers := [("accept", "*/*"), ("user-agent", "VLC/3.0.18")], body := emptyObject }
      Res.initial exampleUrl (by rfl) (by rfl)).1,
    (outbound_headers parseHttpUrl sampleClient expressFour refuses
      { method := "GET", query := [("url", .str "http://example.com/")]
        headers := [("accept", "*/*"), ("user-agent", "VLC/3.0.18")], body := emptyObject }
      Res.initial exampleUrl (by rfl) (by rfl)).2
      { method := "GET", query := [("url", .str "http://example.com/")]
        headers := [("accept", "audio/mpegurl"), ("user-agent", "VLC/3.0.18")]
        body := emptyObject }
      answers404 (cors Res.initial) rfl rfl rfl (by rfl)⟩

/-! ## The cross-origin header -/

/-- C10, as stated, fails: the target answers 200 with the header
`access-control-allow-origin: https://media.example`, and the response of the
relay carries that value, not `*`. -/
theorem upstream_origin_replaces_star :
    (app parseHttpUrl (fun _ => none) sampleClient expressFour answersOwnOrigin plainInbound
        Res.initial).map
        (fun out => out.res.getHeader "Access-Control-Allow-Origin") =
      some (some (.single "https://media.example")) ∧
      HeaderValue.single "https://media.example" ≠ HeaderValue.single "*" :=
  ⟨by rfl, by decide⟩

/-- C10, amended: every response the handler sends carries the header
`Access-Control-Allow-Origin`; its value is `*` on the 400 and 500 answers and
on a relayed answer outside 2xx, and on a relayed 2xx answer it is `*` unless
the target returned a header of that name, in which case it is the value the
target gave.  The relayed answer is the one the HTTP client hands over for
the issued request. -/
theorem cors_header_on_handler_responses (parseURL : String → Except String URL)
    (jsonParse : Bytes → Option Json) (client : Client) (ex : Express)
    (net : Config → Upstream) (w : Inbound) (res : Res) (out : Outcome)
    (hrun : app parseURL jsonParse client ex net w res = some out) :
    (out.res.getHeader "Access-Control-Allow-Origin" = some (.single "*") ∨
      ∃ cfg r e, cfg ∈ out.issued ∧ axios client net cfg = .ok r ∧
        (200 ≤ r.status ∧ r.status < 300) ∧ e ∈ r.headers ∧
        lowerName e.1 = "access-control-allow-origin" ∧
        out.res.getHeader "Access-Control-Allow-Origin" = some e.2) ∧
      ∀ cfg r e, cfg ∈ out.issued → axios client net cfg = .ok r →
        (r.headers.map (fun e => lowerName e.1)).Nodup → e ∈ r.headers →
        lowerName e.1 = "access-control-allow-origin" →
        out.res.getHeader "Access-Control-Allow-Origin" = some e.2 := by
  unfold app at hrun
  split at hrun
  · cases hrun
  · cases hb : expressJson ex jsonParse w.headers w.rawBody with
    | none => simp [hb] at hrun
    | some body =>
      simp only [hb, Option.some.injEq] at hrun
      subst hrun
      refine ⟨?_, ?_⟩
      · rcases handler_getHeader_cases parseURL client ex net
          { method := w.method, query := w.query, headers := w.headers, body := body }
          (cors res) "Access-Control-Allow-Origin" (by decide) (by decide) (by decide)
          (by decide) with h | h
        · exact Or.inl (h.trans (getHeader_cors res))
        · exact Or.inr h
      · intro cfg r e hcfg haxios hkeys he hname
        rw [getHeader_congr _ "Access-Control-Allow-Origin" e.1 (by rw [hname]; rfl)]
        exact handler_relays_header parseURL client ex net _ (cors res) cfg r e
          (by rw [hname]; decide) (by rw [hname]; decide) (by rw [hname]; decide)
          (by rw [hname]; decide) hcfg haxios hkeys he

/-- Witness for the amended C10 at a refused connection. -/
theorem cors_header_on_handler_responses_witness :
    app parseHttpUrl (fun _ => none) sampleClient expressFour refuses plainInbound
        Res.initial =
        some (proxyHandler parseHttpUrl sampleClient expressFour refuses plainRequest
          (cors Res.initial)) ∧
      ((proxyHandler parseHttpUrl sampleClient expressFour refuses plainRequest
          (cors Res.initial)).res.getHeader
          "Access-Control-Allow-Origin" = some (.single "*") ∨
        ∃ cfg r e,
          cfg ∈ (proxyHandler parseHttpUrl sampleClient expressFour refuses plainRequest
            (cors Res.initial)).issued ∧
          axios sampleClient refuses cfg = .ok r ∧ (200 ≤ r.status ∧ r.status < 300) ∧
          e ∈ r.headers ∧ lowerName e.1 = "access-control-allow-origin" ∧
          (proxyHandler parseHttpUrl sampleClient expressFour refuses plainRequest
            (cors Res.initial)).res.getHeader
            "Access-Control-Allow-Origin" = some e.2) :=
  ⟨by rfl,
    (cors_header_on_handler_responses parseHttpUrl (fun _ => none) sampleClient expressFour
      refuses plainInbound Res.initial
      (proxyHandler parseHttpUrl sampleClient expressFour refuses plainRequest
        (cors Res.initial))
      (by rfl)).1⟩

end Proxy
